import Mathlib

/-!
Shallow embedding of `src/app/main.py` (request-processing pipeline).

External collaborators (`app.llm_generator`, `app.github_utils`, `app.notify`,
the OpenAI client, the GitHub repository object) are not part of `src/`; they
are modelled as an environment `Env` of predetermined call outcomes, exactly as
the spec treats them: black-box services with a request/response contract.
The observable behaviour of one pipeline run is the sequence of outbound
effects (`Event` trace) plus whether an uncaught Python exception escaped.
-/

namespace TdsP1

/-- A JSON scalar usable as the `round` field: the source never validates it,
so it can be an integer or a string.  Python `round_num == 1` is true only for
the integer 1 (and `f"round{x}"` formats either kind without quotes). -/
inductive RVal where
  | int (n : Int)
  | str (s : String)
deriving DecidableEq, Repr

/-- Python f-string rendering of the round value (`f"round{round_num}"`). -/
def RVal.fmt : RVal → String
  | .int n => toString n
  | .str s => s

/-- A materialized attachment descriptor as produced by the generation result
(`gen["attachments"]` items: `name`, `mime`, local `path`). -/
structure SavedAtt where
  name : String
  mime : String
  path : String
deriving DecidableEq, Repr

/-- Output of `generate_app_code`: `files` (path ↦ text, association list in
insertion order) and `attachments` (materialized descriptors). -/
structure GenResult where
  files : List (String × String)
  attachments : List SavedAtt
deriving DecidableEq, Repr

/-- The Result Payload assembled at step 7 of `process_request`. -/
structure Payload where
  email : String
  task : String
  round : RVal
  nonce : String
  repo_url : String
  commit_sha : Option String
  pages_url : Option String
deriving DecidableEq, Repr

/-- The ledger table: idempotency key ↦ payload, in dict insertion order. -/
abbrev Ledger := List (String × Payload)

/-- Python `key in processed` / `processed[key]` lookup. -/
def lookupKey (l : Ledger) (k : String) : Option Payload :=
  (l.find? (fun kv => kv.1 = k)).map (fun kv => kv.2)

/-- Python dict assignment `processed[key] = payload`: replaces in place if the
key exists, appends otherwise. -/
def setKey (l : Ledger) (k : String) (p : Payload) : Ledger :=
  if l.any (fun kv => kv.1 = k) then
    l.map (fun kv => if kv.1 = k then (k, p) else kv)
  else
    l ++ [(k, p)]

/-- State of the durable ledger file `/tmp/processed_requests.json`:
absent, present and parseable to a table, or present with contents that fail
to parse (raising `json.JSONDecodeError`). -/
inductive LedgerFile where
  | absent
  | parsed (l : Ledger)
  | corrupt
deriving Repr

/-- `load_processed` (main.py lines 24-30): if the file exists, try to parse
it; a `json.JSONDecodeError` is caught and an empty dict returned; a missing
file also yields an empty dict. -/
def load_processed : LedgerFile → Ledger
  | .absent => []
  | .parsed l => l
  | .corrupt => []

/-- Content committed to the repository.  `utf8Decoded b` stands for
`b.decode("utf-8", errors="ignore")` applied to bytes `b` (the codec itself is
a Python stdlib call; no claim inspects its output). -/
inductive FileContent where
  | text (s : String)
  | utf8Decoded (b : List Nat)
deriving DecidableEq, Repr

/-- The base64 alphabet, indexed 0-63. -/
def b64char (n : Nat) : Char :=
  "ABCDEFGHIJKLMNOPQRSTUVWXYZabcdefghijklmnopqrstuvwxyz0123456789+/".toList.getD n 'A'

/-- `base64.b64encode(content_bytes).decode("utf-8")` over a byte list. -/
def b64encode : List Nat → String
  | [] => ""
  | [b1] =>
      String.mk [b64char (b1 / 4), b64char (b1 % 4 * 16), '=', '=']
  | [b1, b2] =>
      String.mk [b64char (b1 / 4), b64char (b1 % 4 * 16 + b2 / 16),
                 b64char (b2 % 16 * 4), '=']
  | b1 :: b2 :: b3 :: rest =>
      String.mk [b64char (b1 / 4), b64char (b1 % 4 * 16 + b2 / 16),
                 b64char (b2 % 16 * 4 + b3 / 64), b64char (b3 % 64)]
        ++ b64encode rest

/-- One outbound effect of the pipeline.  Commit events are recorded when the
corresponding upsert call succeeds; `enablePagesCall`, `getCommitsCall` and
`notifyCall` record the attempt (their failures are caught in the source). -/
inductive Event where
  | createRepoCall (task : String) (description : String)
  | commitText (path : String) (content : FileContent) (message : String)
  | commitBinary (path : String) (content : List Nat) (message : String)
  | enablePagesCall (task : String)
  | getCommitsCall
  | notifyCall (url : String) (p : Payload)
  | ledgerSave (l : Ledger)
deriving DecidableEq, Repr

/-- Outcomes of the external calls made during one `process_request` run.
`Except Unit α` means the call either returns an `α` or raises. -/
structure Env where
  username : String
  repoHtmlUrl : String
  mitText : String
  readmeOutcome : Except Unit String
  gen : Except Unit GenResult
  readBytes : String → Except Unit (List Nat)
  upsertText : String → Except Unit Unit
  upsertBinary : String → Except Unit Unit
  enablePages : Except Unit Bool
  latestSha : Except Unit String
  ledgerFile : LedgerFile

/-- The intake JSON body.  `round` is optional because `process_request` reads
it with `data.get("round", 1)`; all other fields used by the code are read
with mandatory indexing and are modelled as present. -/
structure ReqData where
  email : String
  task : String
  round : Option RVal
  nonce : String
  brief : String
  evaluation_url : String
  secret : String
deriving Repr

/-- Python `s.startswith(pre)`, over the underlying character sequences. -/
def pyStartsWith (s pre : String) : Bool :=
  List.isPrefixOf pre.toList s.toList

/-- Python `s.endswith(suf)`, over the underlying character sequences. -/
def pyEndsWith (s suf : String) : Bool :=
  List.isPrefixOf suf.toList.reverse s.toList.reverse

/-- The text-vs-binary routing test of main.py line 83:
`att["mime"].startswith("text") or att["name"].endswith((".md",".csv",".json",".txt"))`. -/
def isTextAttachment (a : SavedAtt) : Bool :=
  pyStartsWith a.mime "text" || pyEndsWith a.name ".md" || pyEndsWith a.name ".csv"
    || pyEndsWith a.name ".json" || pyEndsWith a.name ".txt"

/-- One iteration of the Round-1 attachment loop (main.py lines 78-91).  The
whole body sits in a per-attachment `try/except`, so any failure yields only
the commits already performed and never propagates. -/
def commitAttachment (env : Env) (att : SavedAtt) : List Event :=
  match env.readBytes att.path with
  | .error _ => []
  | .ok content_bytes =>
    if isTextAttachment att then
      match env.upsertText att.name with
      | .error _ => []
      | .ok _ =>
          [Event.commitText att.name (FileContent.utf8Decoded content_bytes)
            ("Add attachment " ++ att.name)]
    else
      match env.upsertBinary att.name with
      | .error _ => []
      | .ok _ =>
        let nativeCommit := Event.commitBinary att.name content_bytes
          ("Add binary " ++ att.name)
        match env.upsertText ("attachments/" ++ att.name ++ ".b64") with
        | .error _ => [nativeCommit]
        | .ok _ =>
            [nativeCommit,
             Event.commitText ("attachments/" ++ att.name ++ ".b64")
               (FileContent.text (b64encode content_bytes))
               ("Backup " ++ att.name ++ ".b64")]

/-- A `for fname, content in files.items(): create_or_update_file(...)` loop
with commit message `pre ++ fname ++ suf`.  These loops are not wrapped in
`try`, so the first raising upsert aborts the run (`false` flag); commits made
before the failure are kept. -/
def commitFiles (env : Env) (pre suf : String) :
    List (String × String) → List Event × Bool
  | [] => ([], true)
  | (fname, content) :: rest =>
    match env.upsertText fname with
    | .error _ => ([], false)
    | .ok _ =>
      let r := commitFiles env pre suf rest
      (Event.commitText fname (FileContent.text content) (pre ++ fname ++ suf)
        :: r.1, r.2)

/-- Round-1 `pages_url` from the `enable_pages` outcome (main.py lines
106-113): the public URL if activation returned `True`; `None` if it returned
`False` or raised (the exception is caught and logged). -/
def pagesUrlOutcome (o : Except Unit Bool) (username task : String) :
    Option String :=
  match o with
  | .ok true => some ("https://" ++ username ++ ".github.io/" ++ task ++ "/")
  | .ok false => none
  | .error _ => none

/-- `commit_sha` from the `repo.get_commits()[0].sha` outcome (main.py lines
116-119): the SHA on success, `None` if the lookup raised. -/
def shaOutcome (o : Except Unit String) : Option String :=
  match o with
  | .ok s => some s
  | .error _ => none

/-- Result of one background run: its effect trace and whether an uncaught
Python exception escaped (`.error msg`). -/
structure RunOut where
  events : List Event
  result : Except String Unit
deriving Repr

/-- The idempotency key as computed at persistence time (main.py line 138),
with `round_num = data.get("round", 1)` from line 37. -/
def persistKey (data : ReqData) : String :=
  let round_num := data.round.getD (RVal.int 1)
  data.email ++ "::" ++ data.task ++ "::round" ++ round_num.fmt
    ++ "::nonce" ++ data.nonce

/-- The idempotency key as computed at intake (main.py line 159), with the
mandatory `data["round"]` value `r`. -/
def intakeKey (data : ReqData) (r : RVal) : String :=
  data.email ++ "::" ++ data.task ++ "::round" ++ r.fmt
    ++ "::nonce" ++ data.nonce

/-- The background pipeline `process_request` (main.py lines 36-142).

Notes tying the embedding to the source:
* `decode_attachments` (line 42) is called on the inline attachments but its
  result is only printed, never used downstream; it is elided.
* `create_repo` (line 46) is recorded as an effect; the spec classes its
  failure as unhandled and no claim exercises it, so it is modelled as
  succeeding with `env.repoHtmlUrl`.
* The `except OpenAIError` handler on line 67 references a name that is never
  imported (line 13 imports only `OpenAI`), so when `generate_app_code`
  raises, evaluating the handler raises `NameError` and the run aborts; the
  fallback assignment on lines 69-70 is unreachable. -/
def process_request (env : Env) (data : ReqData) : RunOut :=
  let round_num : RVal := data.round.getD (RVal.int 1)
  let task_id := data.task
  let evRepo := [Event.createRepoCall task_id
    ("Auto-generated app for task: " ++ data.brief)]
  let _prev_readme : Option String :=
    if round_num = RVal.int 2 then
      match env.readmeOutcome with
      | .ok s => some s
      | .error _ => none
    else none
  match env.gen with
  | .error _ =>
      { events := evRepo,
        result := .error "NameError: name 'OpenAIError' is not defined" }
  | .ok gen =>
    let files := gen.files
    let saved_info := gen.attachments
    let roundStep : List Event × Bool :=
      if round_num = RVal.int 1 then
        ((saved_info.map (commitAttachment env)).flatten, true)
      else
        commitFiles env "Update " " for round 2" files
    if roundStep.2 = false then
      { events := evRepo ++ roundStep.1,
        result := .error "create_or_update_file raised" }
    else
      let commonStep := commitFiles env "Add/Update " "" files
      if commonStep.2 = false then
        { events := evRepo ++ roundStep.1 ++ commonStep.1,
          result := .error "create_or_update_file raised" }
      else
        match env.upsertText "LICENSE" with
        | .error _ =>
            { events := evRepo ++ roundStep.1 ++ commonStep.1,
              result := .error "create_or_update_file raised" }
        | .ok _ =>
          let evLic := [Event.commitText "LICENSE" (FileContent.text env.mitText)
            "Add MIT license"]
          let pagesStep : List Event × Option String :=
            if round_num = RVal.int 1 then
              ([Event.enablePagesCall task_id],
               pagesUrlOutcome env.enablePages env.username task_id)
            else
              ([], some ("https://" ++ env.username ++ ".github.io/" ++ task_id ++ "/"))
          let commit_sha : Option String := shaOutcome env.latestSha
          let payload : Payload :=
            { email := data.email, task := data.task, round := round_num,
              nonce := data.nonce, repo_url := env.repoHtmlUrl,
              commit_sha := commit_sha, pages_url := pagesStep.2 }
          let processed := load_processed env.ledgerFile
          { events := evRepo ++ roundStep.1 ++ commonStep.1 ++ evLic
              ++ pagesStep.1
              ++ [Event.getCommitsCall,
                  Event.notifyCall data.evaluation_url payload,
                  Event.ledgerSave (setKey processed (persistKey data) payload)],
            result := .ok () }

/-- The JSON body returned by the intake endpoint. -/
inductive IntakeResp where
  | invalidSecret
  | duplicate
  | accepted (r : RVal)
deriving DecidableEq, Repr

/-- Observable outcome of one intake call: whether the ledger file was read,
which notification attempts were made, whether a background pipeline was
scheduled, and the response (`.error` = uncaught `KeyError`). -/
structure IntakeOut where
  ledgerLoaded : Bool
  notifyCalls : List (String × Payload)
  scheduled : Bool
  response : Except String IntakeResp
deriving Repr

/-- The intake endpoint `receive_request` (main.py lines 150-171).  The secret
check precedes every other action; the duplicate path re-notifies with the
stored payload (delivery failure caught) and schedules nothing; the miss path
schedules the background pipeline.  `data["round"]` etc. raise `KeyError`
when absent. -/
def receive_request (userSecret : String) (ledgerFile : LedgerFile)
    (data : ReqData) : IntakeOut :=
  if data.secret ≠ userSecret then
    { ledgerLoaded := false, notifyCalls := [], scheduled := false,
      response := .ok .invalidSecret }
  else
    let processed := load_processed ledgerFile
    match data.round with
    | none =>
        { ledgerLoaded := true, notifyCalls := [], scheduled := false,
          response := .error "KeyError: round" }
    | some r =>
      match lookupKey processed (intakeKey data r) with
      | some stored =>
          { ledgerLoaded := true,
            notifyCalls := [(data.evaluation_url, stored)],
            scheduled := false, response := .ok .duplicate }
      | none =>
          { ledgerLoaded := true, notifyCalls := [], scheduled := true,
            response := .ok (.accepted r) }

/-- Commit events (text or binary file upserts) among a trace. -/
def Event.isCommit : Event → Bool
  | .commitText _ _ _ => true
  | .commitBinary _ _ _ => true
  | _ => false

/-- The repository path touched by a commit event, if any. -/
def Event.commitPath : Event → Option String
  | .commitText p _ _ => some p
  | .commitBinary p _ _ => some p
  | _ => none

/-- The commits performed by one run, in order. -/
def commitsOf (r : RunOut) : List Event :=
  r.events.filter Event.isCommit

/-- Concrete fixtures used by witnesses and counterexamples. -/
def wAtt : SavedAtt :=
  { name := "logo.png", mime := "image/png", path := "/tmp/att/logo.png" }

def wGen : GenResult :=
  { files := [("index.html", "<h1>hi</h1>"), ("script.js", "let x = 1")],
    attachments := [wAtt] }

def wData : ReqData :=
  { email := "a@b.c", task := "t1", round := some (RVal.int 1), nonce := "n1",
    brief := "make an app", evaluation_url := "http://eval", secret := "sek" }

def wEnvOk : Env :=
  { username := "user", repoHtmlUrl := "http://repo/t1", mitText := "MIT",
    readmeOutcome := Except.ok "old readme", gen := Except.ok wGen,
    readBytes := fun _ => Except.ok [1, 2, 3],
    upsertText := fun _ => Except.ok (), upsertBinary := fun _ => Except.ok (),
    enablePages := Except.ok true, latestSha := Except.ok "sha1",
    ledgerFile := LedgerFile.absent }

def wStoredPayload : Payload :=
  { email := "a@b.c", task := "t1", round := RVal.int 1, nonce := "n1",
    repo_url := "http://repo/t1", commit_sha := some "sha0",
    pages_url := some "https://user.github.io/t1/" }

def wLedgerHit : LedgerFile :=
  LedgerFile.parsed [(intakeKey wData (RVal.int 1), wStoredPayload)]

def wEnvGenFail : Env := { wEnvOk with gen := Except.error () }

def wData2 : ReqData := { wData with round := some (RVal.int 2), nonce := "n2" }

def wEnvPagesFail : Env := { wEnvOk with enablePages := Except.error () }

def wPayloadDegraded : Payload :=
  { email := wData.email, task := wData.task, round := RVal.int 1,
    nonce := wData.nonce, repo_url := wEnvPagesFail.repoHtmlUrl,
    commit_sha := some "sha1", pages_url := none }

def wGenNoAtt : GenResult := { files := wGen.files, attachments := [] }

def wEnvPagesFailNoAtt : Env := { wEnvPagesFail with gen := Except.ok wGenNoAtt }

def wEnvNoAtt : Env := { wEnvOk with gen := Except.ok wGenNoAtt }

def wPayloadR1 : Payload :=
  { email := wData.email, task := wData.task, round := RVal.int 1,
    nonce := wData.nonce, repo_url := wEnvNoAtt.repoHtmlUrl,
    commit_sha := some "sha1",
    pages_url := pagesUrlOutcome wEnvNoAtt.enablePages wEnvNoAtt.username
      wData.task }

def wPayloadR2 : Payload :=
  { email := wData2.email, task := wData2.task, round := RVal.int 2,
    nonce := wData2.nonce, repo_url := wEnvNoAtt.repoHtmlUrl,
    commit_sha := some "sha1",
    pages_url := some ("https://" ++ wEnvNoAtt.username ++ ".github.io/"
      ++ wData2.task ++ "/") }

def wAttDoc : SavedAtt :=
  { name := "notes.md", mime := "text/markdown", path := "/tmp/att/notes.md" }

def wAttBad : SavedAtt :=
  { name := "data.bin", mime := "application/octet-stream",
    path := "/tmp/att/data.bin" }

/-- Environment where reading the second attachment's materialized file
raises but everything else succeeds. -/
def wEnvAttFail : Env :=
  { wEnvOk with
    gen := Except.ok { files := wGen.files,
                       attachments := [wAttDoc, wAttBad, wAtt] },
    readBytes := fun q =>
      if q = wAttBad.path then Except.error () else Except.ok [1, 2, 3] }

def wPayloadAttFail : Payload :=
  { email := wData.email, task := wData.task, round := RVal.int 1,
    nonce := wData.nonce, repo_url := wEnvAttFail.repoHtmlUrl,
    commit_sha := shaOutcome wEnvAttFail.latestSha,
    pages_url := pagesUrlOutcome wEnvAttFail.enablePages wEnvAttFail.username
      wData.task }

def wDataR0 : ReqData := { wData with round := some (RVal.int 0), nonce := "n0" }

def wPayloadR0 : Payload :=
  { email := wDataR0.email, task := wDataR0.task, round := RVal.int 0,
    nonce := wDataR0.nonce, repo_url := wEnvNoAtt.repoHtmlUrl,
    commit_sha := some "sha1",
    pages_url := some ("https://" ++ wEnvNoAtt.username ++ ".github.io/"
      ++ wDataR0.task ++ "/") }


/-- A `files.items()` commit loop where every upsert succeeds commits each
file once, in order, and does not abort. -/
theorem commitFiles_ok (env : Env) (pre suf : String)
    (fs : List (String × String))
    (h : ∀ pc ∈ fs, env.upsertText pc.1 = Except.ok ()) :
    commitFiles env pre suf fs =
      (fs.map (fun pc => Event.commitText pc.1 (FileContent.text pc.2)
        (pre ++ pc.1 ++ suf)), true) := by
  induction fs with
  | nil => rfl
  | cons hd tl ih =>
      obtain ⟨fname, content⟩ := hd
      have h1 : env.upsertText fname = Except.ok () := h (fname, content) (by simp)
      have h2 : ∀ pc ∈ tl, env.upsertText pc.1 = Except.ok () :=
        fun pc hm => h pc (by simp [hm])
      simp [commitFiles, h1, ih h2]

/-- A text-routed attachment whose read and upsert succeed yields one text
commit at its own path. -/
theorem commitAttachment_text (env : Env) (a : SavedAtt) (bytes : List Nat)
    (htext : isTextAttachment a = true)
    (hread : env.readBytes a.path = Except.ok bytes)
    (hup : env.upsertText a.name = Except.ok ()) :
    commitAttachment env a =
      [Event.commitText a.name (FileContent.utf8Decoded bytes)
        ("Add attachment " ++ a.name)] := by
  simp [commitAttachment, hread, htext, hup]

/-- A binary-routed attachment whose read and both upserts succeed yields the
native binary commit followed by the base64 backup commit. -/
theorem commitAttachment_binary (env : Env) (a : SavedAtt) (bytes : List Nat)
    (htext : isTextAttachment a = false)
    (hread : env.readBytes a.path = Except.ok bytes)
    (hupB : env.upsertBinary a.name = Except.ok ())
    (hupT : env.upsertText ("attachments/" ++ a.name ++ ".b64") = Except.ok ()) :
    commitAttachment env a =
      [Event.commitBinary a.name bytes ("Add binary " ++ a.name),
       Event.commitText ("attachments/" ++ a.name ++ ".b64")
         (FileContent.text (b64encode bytes)) ("Backup " ++ a.name ++ ".b64")] := by
  simp [commitAttachment, hread, htext, hupB, hupT]

/-- C4: a request whose secret differs from the configured shared secret is
answered with the invalid-secret error and causes no side effect at all: the
ledger file is not read, no notification is attempted, and no background
pipeline is scheduled. -/
theorem C4_invalid_secret_no_side_effects (userSecret : String)
    (lf : LedgerFile) (data : ReqData) (h : data.secret ≠ userSecret) :
    receive_request userSecret lf data =
      { ledgerLoaded := false, notifyCalls := [], scheduled := false,
        response := Except.ok IntakeResp.invalidSecret } := by
  simp [receive_request, h]

/-- C4 witness. -/
theorem C4_invalid_secret_no_side_effects_witness :
    receive_request "other-secret" LedgerFile.absent wData =
      { ledgerLoaded := false, notifyCalls := [], scheduled := false,
        response := Except.ok IntakeResp.invalidSecret } :=
  C4_invalid_secret_no_side_effects "other-secret" LedgerFile.absent wData
    (by decide)

/-- C7: for a request carrying a round value, the idempotency key computed at
intake (line 159) is the identical string computed at persistence time
(line 138). -/
theorem C7_idempotency_key_consistent (data : ReqData) (r : RVal)
    (h : data.round = some r) :
    intakeKey data r = persistKey data := by
  simp [intakeKey, persistKey, h]

/-- C7 witness. -/
theorem C7_idempotency_key_consistent_witness :
    intakeKey wData (RVal.int 1) = persistKey wData :=
  C7_idempotency_key_consistent wData (RVal.int 1) rfl

/-- C3: when the idempotency key already has a ledger entry, intake makes
exactly one notification attempt carrying the stored payload verbatim,
returns the duplicate acknowledgment, and schedules no background pipeline,
so the repository-writing pipeline runs at most once per key. -/
theorem C3_duplicate_renotify (userSecret : String) (lf : LedgerFile)
    (data : ReqData) (r : RVal) (stored : Payload)
    (hsec : data.secret = userSecret) (hr : data.round = some r)
    (hdup : lookupKey (load_processed lf) (intakeKey data r) = some stored) :
    receive_request userSecret lf data =
      { ledgerLoaded := true, notifyCalls := [(data.evaluation_url, stored)],
        scheduled := false, response := Except.ok IntakeResp.duplicate } := by
  simp [receive_request, hsec, hr, hdup]

/-- C3 witness. -/
theorem C3_duplicate_renotify_witness :
    receive_request "sek" wLedgerHit wData =
      { ledgerLoaded := true,
        notifyCalls := [(wData.evaluation_url, wStoredPayload)],
        scheduled := false, response := Except.ok IntakeResp.duplicate } :=
  C3_duplicate_renotify "sek" wLedgerHit wData (RVal.int 1) wStoredPayload
    rfl rfl (by decide)

/-- C5 counterexample: with corrupted ledger contents the parse failure is
swallowed, not propagated — `load_processed` returns the empty table and the
intake of a fresh request over the corrupted store proceeds normally
(schedules the pipeline) instead of aborting. -/
theorem C5_counterexample :
    load_processed LedgerFile.corrupt = [] ∧
    (receive_request "sek" LedgerFile.corrupt wData).response
        = Except.ok (IntakeResp.accepted (RVal.int 1)) ∧
    (receive_request "sek" LedgerFile.corrupt wData).scheduled = true := by
  refine ⟨rfl, rfl, rfl⟩

/-- C5 (amended): when the stored ledger contents fail to parse,
`load_processed` catches the decode error and returns an empty table, and any
intake over the corrupted store proceeds as if no request had ever been
processed — corruption is silently treated as an empty ledger, never
propagated. -/
theorem C5_corrupt_ledger_treated_empty (userSecret : String)
    (data : ReqData) (r : RVal)
    (hsec : data.secret = userSecret) (hr : data.round = some r) :
    load_processed LedgerFile.corrupt = [] ∧
    receive_request userSecret LedgerFile.corrupt data =
      { ledgerLoaded := true, notifyCalls := [], scheduled := true,
        response := Except.ok (IntakeResp.accepted r) } := by
  refine ⟨rfl, ?_⟩
  simp [receive_request, hsec, hr, lookupKey, load_processed]

/-- C5 amended-claim witness. -/
theorem C5_corrupt_ledger_treated_empty_witness :
    load_processed LedgerFile.corrupt = [] ∧
    receive_request "sek" LedgerFile.corrupt wData =
      { ledgerLoaded := true, notifyCalls := [], scheduled := true,
        response := Except.ok (IntakeResp.accepted (RVal.int 1)) } :=
  C5_corrupt_ledger_treated_empty "sek" wData (RVal.int 1) rfl rfl

/-- C2: at a round-1 request whose code-generation call raises, the run dies
with an uncaught NameError — the `except OpenAIError` handler on line 67
names an identifier that is never imported — so the fallback index.html is
never built, nothing is committed, no notification is attempted and no
ledger entry is written, contradicting the documented fallback behaviour. -/
theorem C2_generation_failure_aborts :
    (process_request wEnvGenFail wData).result
        = Except.error "NameError: name 'OpenAIError' is not defined" ∧
    (process_request wEnvGenFail wData).events
        = [Event.createRepoCall "t1" "Auto-generated app for task: make an app"] ∧
    commitsOf (process_request wEnvGenFail wData) = [] := by
  refine ⟨rfl, by decide, by decide⟩

/-- C1 (amended): with a generation result of 2 text files and 1 binary
attachment and every repository call succeeding, a Round-1 run performs
exactly these commits in order: the attachment's native binary commit, its
base64 backup under `attachments/`, one commit per generated file, and the
license — 2 generated-file commits, 2 attachment commits, 1 license commit.
A Round-2 run over the same generated files performs 4 generated-file commits
(each file is committed by the revision loop and again by the common loop),
1 license commit, and no attachment commits. -/
theorem C1_round_commit_counts
    (env1 env2 : Env) (data1 data2 : ReqData)
    (f1 c1 f2 c2 : String) (a : SavedAtt) (bytes : List Nat)
    (hbin : isTextAttachment a = false)
    (hr1 : data1.round = some (RVal.int 1))
    (hgen1 : env1.gen = Except.ok ⟨[(f1, c1), (f2, c2)], [a]⟩)
    (hread : env1.readBytes a.path = Except.ok bytes)
    (hupB : env1.upsertBinary a.name = Except.ok ())
    (hupT1 : ∀ q, env1.upsertText q = Except.ok ())
    (hr2 : data2.round = some (RVal.int 2))
    (hgen2 : env2.gen = Except.ok ⟨[(f1, c1), (f2, c2)], [a]⟩)
    (hupT2 : ∀ q, env2.upsertText q = Except.ok ()) :
    commitsOf (process_request env1 data1) =
      [Event.commitBinary a.name bytes ("Add binary " ++ a.name),
       Event.commitText ("attachments/" ++ a.name ++ ".b64")
         (FileContent.text (b64encode bytes)) ("Backup " ++ a.name ++ ".b64"),
       Event.commitText f1 (FileContent.text c1) ("Add/Update " ++ f1),
       Event.commitText f2 (FileContent.text c2) ("Add/Update " ++ f2),
       Event.commitText "LICENSE" (FileContent.text env1.mitText)
         "Add MIT license"] ∧
    commitsOf (process_request env2 data2) =
      [Event.commitText f1 (FileContent.text c1) ("Update " ++ f1 ++ " for round 2"),
       Event.commitText f2 (FileContent.text c2) ("Update " ++ f2 ++ " for round 2"),
       Event.commitText f1 (FileContent.text c1) ("Add/Update " ++ f1),
       Event.commitText f2 (FileContent.text c2) ("Add/Update " ++ f2),
       Event.commitText "LICENSE" (FileContent.text env2.mitText)
         "Add MIT license"] := by
  constructor
  · have hca := commitAttachment_binary env1 a bytes hbin hread hupB
      (hupT1 ("attachments/" ++ a.name ++ ".b64"))
    have hcf := commitFiles_ok env1 "Add/Update " "" [(f1, c1), (f2, c2)]
      (fun pc _ => hupT1 pc.1)
    simp [process_request, commitsOf, hr1, hgen1, hca, hcf, hupT1, Event.isCommit]
  · have hcf1 := commitFiles_ok env2 "Update " " for round 2" [(f1, c1), (f2, c2)]
      (fun pc _ => hupT2 pc.1)
    have hcf2 := commitFiles_ok env2 "Add/Update " "" [(f1, c1), (f2, c2)]
      (fun pc _ => hupT2 pc.1)
    simp [process_request, commitsOf, hr2, hgen2, hcf1, hcf2, hupT2, Event.isCommit]

/-- C1 witness: the amended statement instantiated at the concrete fixtures. -/
theorem C1_round_commit_counts_witness :
    commitsOf (process_request wEnvOk wData) =
      [Event.commitBinary wAtt.name [1, 2, 3] ("Add binary " ++ wAtt.name),
       Event.commitText ("attachments/" ++ wAtt.name ++ ".b64")
         (FileContent.text (b64encode [1, 2, 3]))
         ("Backup " ++ wAtt.name ++ ".b64"),
       Event.commitText "index.html" (FileContent.text "<h1>hi</h1>")
         ("Add/Update " ++ "index.html"),
       Event.commitText "script.js" (FileContent.text "let x = 1")
         ("Add/Update " ++ "script.js"),
       Event.commitText "LICENSE" (FileContent.text wEnvOk.mitText)
         "Add MIT license"] ∧
    commitsOf (process_request wEnvOk wData2) =
      [Event.commitText "index.html" (FileContent.text "<h1>hi</h1>")
         ("Update " ++ "index.html" ++ " for round 2"),
       Event.commitText "script.js" (FileContent.text "let x = 1")
         ("Update " ++ "script.js" ++ " for round 2"),
       Event.commitText "index.html" (FileContent.text "<h1>hi</h1>")
         ("Add/Update " ++ "index.html"),
       Event.commitText "script.js" (FileContent.text "let x = 1")
         ("Add/Update " ++ "script.js"),
       Event.commitText "LICENSE" (FileContent.text wEnvOk.mitText)
         "Add MIT license"] :=
  C1_round_commit_counts wEnvOk wEnvOk wData wData2
    "index.html" "<h1>hi</h1>" "script.js" "let x = 1" wAtt [1, 2, 3]
    (by decide) rfl rfl rfl rfl (fun _ => rfl) rfl rfl (fun _ => rfl)

/-- C1 counterexample: in the concrete Round-2 run with two generated files,
the commits to the generated-file paths number 4 (each file is committed by
the revision loop and again by the common loop), not 2 as the claim states. -/
theorem C1_counterexample :
    ((process_request wEnvOk wData2).events.filter
      (fun e => e.commitPath == some "index.html"
        || e.commitPath == some "script.js")).length = 4 ∧
    ((process_request wEnvOk wData2).events.filter
      (fun e => e.commitPath == some "index.html"
        || e.commitPath == some "script.js")).length ≠ 2 := by
  refine ⟨by decide, by decide⟩

/-- C6: if hosting activation raises or reports `false` in Round 1, the run
still completes: commit-SHA resolution is attempted and succeeds, the
notification attempt and the ledger write both carry the payload with
`pages_url = none` and the resolved `commit_sha`, and no exception escapes. -/
theorem C6_hosting_failure_degrades
    (env : Env) (data : ReqData) (fs : List (String × String)) (sha : String)
    (p : Payload)
    (hr : data.round = some (RVal.int 1))
    (hgen : env.gen = Except.ok ⟨fs, []⟩)
    (hupT : ∀ q, env.upsertText q = Except.ok ())
    (hpages : env.enablePages = Except.error ()
      ∨ env.enablePages = Except.ok false)
    (hsha : env.latestSha = Except.ok sha)
    (hp : p = { email := data.email, task := data.task, round := RVal.int 1,
                nonce := data.nonce, repo_url := env.repoHtmlUrl,
                commit_sha := some sha, pages_url := none }) :
    (process_request env data).result = Except.ok () ∧
    Event.getCommitsCall ∈ (process_request env data).events ∧
    Event.notifyCall data.evaluation_url p ∈ (process_request env data).events ∧
    Event.ledgerSave (setKey (load_processed env.ledgerFile) (persistKey data) p)
      ∈ (process_request env data).events := by
  subst hp
  have hcf := commitFiles_ok env "Add/Update " "" fs (fun pc _ => hupT pc.1)
  rcases hpages with h | h <;>
    simp [process_request, pagesUrlOutcome, shaOutcome, hr, hgen, hcf, hupT, h,
      hsha]

/-- C6 witness. -/
theorem C6_hosting_failure_degrades_witness :
    (process_request wEnvPagesFailNoAtt wData).result = Except.ok () ∧
    Event.getCommitsCall ∈ (process_request wEnvPagesFailNoAtt wData).events ∧
    Event.notifyCall wData.evaluation_url wPayloadDegraded
      ∈ (process_request wEnvPagesFailNoAtt wData).events ∧
    Event.ledgerSave (setKey (load_processed wEnvPagesFailNoAtt.ledgerFile)
        (persistKey wData) wPayloadDegraded)
      ∈ (process_request wEnvPagesFailNoAtt wData).events :=
  C6_hosting_failure_degrades wEnvPagesFailNoAtt wData wGen.files "sha1"
    wPayloadDegraded rfl rfl (fun _ => rfl) (Or.inl rfl) rfl rfl

/-- C8: a Round-1 run makes the hosting-activation call and its payload's
`pages_url` is the public URL exactly when activation returned `true`; a
Round-2 run makes no activation call and sets `pages_url` to the synthesized
public URL unconditionally. -/
theorem C8_round_pages_behavior
    (env1 env2 : Env) (data1 data2 : ReqData) (fs : List (String × String))
    (sha1 sha2 : String) (p1 p2 : Payload)
    (hr1 : data1.round = some (RVal.int 1))
    (hgen1 : env1.gen = Except.ok ⟨fs, []⟩)
    (hupT1 : ∀ q, env1.upsertText q = Except.ok ())
    (hsha1 : env1.latestSha = Except.ok sha1)
    (hp1 : p1 = { email := data1.email, task := data1.task, round := RVal.int 1,
                  nonce := data1.nonce, repo_url := env1.repoHtmlUrl,
                  commit_sha := some sha1,
                  pages_url := pagesUrlOutcome env1.enablePages env1.username
                    data1.task })
    (hr2 : data2.round = some (RVal.int 2))
    (hgen2 : env2.gen = Except.ok ⟨fs, []⟩)
    (hupT2 : ∀ q, env2.upsertText q = Except.ok ())
    (hsha2 : env2.latestSha = Except.ok sha2)
    (hp2 : p2 = { email := data2.email, task := data2.task, round := RVal.int 2,
                  nonce := data2.nonce, repo_url := env2.repoHtmlUrl,
                  commit_sha := some sha2,
                  pages_url := some ("https://" ++ env2.username ++ ".github.io/"
                    ++ data2.task ++ "/") }) :
    Event.enablePagesCall data1.task ∈ (process_request env1 data1).events ∧
    Event.notifyCall data1.evaluation_url p1
      ∈ (process_request env1 data1).events ∧
    (pagesUrlOutcome env1.enablePages env1.username data1.task
        = some ("https://" ++ env1.username ++ ".github.io/" ++ data1.task ++ "/")
      ↔ env1.enablePages = Except.ok true) ∧
    Event.enablePagesCall data2.task ∉ (process_request env2 data2).events ∧
    Event.notifyCall data2.evaluation_url p2
      ∈ (process_request env2 data2).events := by
  subst hp1 hp2
  have hcf1 := commitFiles_ok env1 "Add/Update " "" fs (fun pc _ => hupT1 pc.1)
  have hcfA := commitFiles_ok env2 "Update " " for round 2" fs
    (fun pc _ => hupT2 pc.1)
  have hcfB := commitFiles_ok env2 "Add/Update " "" fs (fun pc _ => hupT2 pc.1)
  refine ⟨?_, ?_, ?_, ?_, ?_⟩
  · simp [process_request, shaOutcome, hr1, hgen1, hcf1, hupT1, hsha1]
  · simp [process_request, shaOutcome, hr1, hgen1, hcf1, hupT1, hsha1]
  · rcases hb : env1.enablePages with u | b
    · simp [pagesUrlOutcome, hb]
    · cases b <;> simp [pagesUrlOutcome, hb]
  · simp [process_request, shaOutcome, hr2, hgen2, hcfA, hcfB, hupT2, hsha2]
  · simp [process_request, shaOutcome, hr2, hgen2, hcfA, hcfB, hupT2, hsha2]

/-- C8 witness. -/
theorem C8_round_pages_behavior_witness :
    Event.enablePagesCall wData.task
      ∈ (process_request wEnvNoAtt wData).events ∧
    Event.notifyCall wData.evaluation_url wPayloadR1
      ∈ (process_request wEnvNoAtt wData).events ∧
    (pagesUrlOutcome wEnvNoAtt.enablePages wEnvNoAtt.username wData.task
        = some ("https://" ++ wEnvNoAtt.username ++ ".github.io/"
          ++ wData.task ++ "/")
      ↔ wEnvNoAtt.enablePages = Except.ok true) ∧
    Event.enablePagesCall wData2.task ∉ (process_request wEnvNoAtt wData2).events ∧
    Event.notifyCall wData2.evaluation_url wPayloadR2
      ∈ (process_request wEnvNoAtt wData2).events :=
  C8_round_pages_behavior wEnvNoAtt wEnvNoAtt wData wData2 wGen.files
    "sha1" "sha1" wPayloadR1 wPayloadR2 rfl rfl (fun _ => rfl) rfl rfl rfl rfl
    (fun _ => rfl) rfl rfl

/-- C9: in Round 1 with three attachments, a failure confined to the middle
one — read error, text-commit error, binary-commit error, or backup-commit
error — is caught by the per-attachment handler: the first and third
attachments are still committed, every generated file and the license are
still committed, hosting activation, notification and the ledger write still
happen, and no exception escapes the run. -/
theorem C9_attachment_failure_isolated
    (env : Env) (data : ReqData) (fs : List (String × String))
    (a1 a2 a3 : SavedAtt) (b1 b3 : List Nat) (p : Payload)
    (hr : data.round = some (RVal.int 1))
    (hgen : env.gen = Except.ok ⟨fs, [a1, a2, a3]⟩)
    (h1text : isTextAttachment a1 = true)
    (h1read : env.readBytes a1.path = Except.ok b1)
    (h1up : env.upsertText a1.name = Except.ok ())
    (h3bin : isTextAttachment a3 = false)
    (h3read : env.readBytes a3.path = Except.ok b3)
    (h3upB : env.upsertBinary a3.name = Except.ok ())
    (h3upT : env.upsertText ("attachments/" ++ a3.name ++ ".b64") = Except.ok ())
    (hfs : ∀ pc ∈ fs, env.upsertText pc.1 = Except.ok ())
    (hLic : env.upsertText "LICENSE" = Except.ok ())
    (h2fail : env.readBytes a2.path = Except.error ()
      ∨ (isTextAttachment a2 = true ∧ env.upsertText a2.name = Except.error ())
      ∨ (isTextAttachment a2 = false ∧ env.upsertBinary a2.name = Except.error ())
      ∨ (isTextAttachment a2 = false ∧ env.upsertBinary a2.name = Except.ok ()
          ∧ env.upsertText ("attachments/" ++ a2.name ++ ".b64")
              = Except.error ()))
    (hp : p = { email := data.email, task := data.task, round := RVal.int 1,
                nonce := data.nonce, repo_url := env.repoHtmlUrl,
                commit_sha := shaOutcome env.latestSha,
                pages_url := pagesUrlOutcome env.enablePages env.username
                  data.task }) :
    (process_request env data).result = Except.ok () ∧
    (commitAttachment env a2 = []
      ∨ ∃ bs2, commitAttachment env a2
          = [Event.commitBinary a2.name bs2 ("Add binary " ++ a2.name)]) ∧
    (process_request env data).events =
      [Event.createRepoCall data.task
         ("Auto-generated app for task: " ++ data.brief),
       Event.commitText a1.name (FileContent.utf8Decoded b1)
         ("Add attachment " ++ a1.name)]
      ++ commitAttachment env a2
      ++ [Event.commitBinary a3.name b3 ("Add binary " ++ a3.name),
          Event.commitText ("attachments/" ++ a3.name ++ ".b64")
            (FileContent.text (b64encode b3)) ("Backup " ++ a3.name ++ ".b64")]
      ++ fs.map (fun pc => Event.commitText pc.1 (FileContent.text pc.2)
            ("Add/Update " ++ pc.1))
      ++ [Event.commitText "LICENSE" (FileContent.text env.mitText)
            "Add MIT license",
          Event.enablePagesCall data.task,
          Event.getCommitsCall,
          Event.notifyCall data.evaluation_url p,
          Event.ledgerSave (setKey (load_processed env.ledgerFile)
            (persistKey data) p)] := by
  subst hp
  have hca1 := commitAttachment_text env a1 b1 h1text h1read h1up
  have hca3 := commitAttachment_binary env a3 b3 h3bin h3read h3upB h3upT
  have hcf := commitFiles_ok env "Add/Update " "" fs (fun pc hm => hfs pc hm)
  have hca2 : commitAttachment env a2 = []
      ∨ ∃ bs2, commitAttachment env a2
          = [Event.commitBinary a2.name bs2 ("Add binary " ++ a2.name)] := by
    rcases h2fail with h | ⟨ht, h⟩ | ⟨ht, h⟩ | ⟨ht, hB, hT⟩
    · exact Or.inl (by simp [commitAttachment, h])
    · refine Or.inl ?_
      cases hrb : env.readBytes a2.path with
      | error u => simp [commitAttachment, hrb]
      | ok bs => simp [commitAttachment, hrb, ht, h]
    · refine Or.inl ?_
      cases hrb : env.readBytes a2.path with
      | error u => simp [commitAttachment, hrb]
      | ok bs => simp [commitAttachment, hrb, ht, h]
    · cases hrb : env.readBytes a2.path with
      | error u => exact Or.inl (by simp [commitAttachment, hrb])
      | ok bs =>
          exact Or.inr ⟨bs, by simp [commitAttachment, hrb, ht, hB, hT]⟩
  refine ⟨?_, hca2, ?_⟩ <;>
    rcases hca2 with h2 | ⟨bs2, h2⟩ <;>
    simp [process_request, hr, hgen, hca1, h2, hca3, hcf, hLic]

/-- C9 witness. -/
theorem C9_attachment_failure_isolated_witness :
    (process_request wEnvAttFail wData).result = Except.ok () ∧
    (commitAttachment wEnvAttFail wAttBad = []
      ∨ ∃ bs2, commitAttachment wEnvAttFail wAttBad
          = [Event.commitBinary wAttBad.name bs2
              ("Add binary " ++ wAttBad.name)]) ∧
    (process_request wEnvAttFail wData).events =
      [Event.createRepoCall wData.task
         ("Auto-generated app for task: " ++ wData.brief),
       Event.commitText wAttDoc.name (FileContent.utf8Decoded [1, 2, 3])
         ("Add attachment " ++ wAttDoc.name)]
      ++ commitAttachment wEnvAttFail wAttBad
      ++ [Event.commitBinary wAtt.name [1, 2, 3] ("Add binary " ++ wAtt.name),
          Event.commitText ("attachments/" ++ wAtt.name ++ ".b64")
            (FileContent.text (b64encode [1, 2, 3]))
            ("Backup " ++ wAtt.name ++ ".b64")]
      ++ wGen.files.map (fun pc => Event.commitText pc.1 (FileContent.text pc.2)
            ("Add/Update " ++ pc.1))
      ++ [Event.commitText "LICENSE" (FileContent.text wEnvAttFail.mitText)
            "Add MIT license",
          Event.enablePagesCall wData.task,
          Event.getCommitsCall,
          Event.notifyCall wData.evaluation_url wPayloadAttFail,
          Event.ledgerSave (setKey (load_processed wEnvAttFail.ledgerFile)
            (persistKey wData) wPayloadAttFail)] :=
  C9_attachment_failure_isolated wEnvAttFail wData wGen.files
    wAttDoc wAttBad wAtt [1, 2, 3] [1, 2, 3] wPayloadAttFail
    rfl rfl (by decide) rfl rfl (by decide) rfl rfl rfl
    (fun pc _ => rfl) rfl (Or.inl rfl) rfl

/-- C10: any accepted round value other than the integer 1 — 0, 3, or a
string — takes the revision branch: the full event trace consists of the
repository call, one commit per generated file from the revision loop, one
per generated file from the common loop, the license commit, the commit-SHA
lookup, the notification attempt and the ledger write; no attachment is
committed, hosting activation is never invoked, `pages_url` is the
synthesized public URL unconditionally, and the round value appears verbatim
in the idempotency key and the payload. -/
theorem C10_non_round1_revision_branch
    (env : Env) (data : ReqData) (fs : List (String × String))
    (atts : List SavedAtt) (r : RVal) (sha : String) (p : Payload)
    (hr : data.round = some r) (hne : r ≠ RVal.int 1)
    (hgen : env.gen = Except.ok ⟨fs, atts⟩)
    (hupT : ∀ q, env.upsertText q = Except.ok ())
    (hsha : env.latestSha = Except.ok sha)
    (hp : p = { email := data.email, task := data.task, round := r,
                nonce := data.nonce, repo_url := env.repoHtmlUrl,
                commit_sha := some sha,
                pages_url := some ("https://" ++ env.username ++ ".github.io/"
                  ++ data.task ++ "/") }) :
    (process_request env data).events =
      [Event.createRepoCall data.task
        ("Auto-generated app for task: " ++ data.brief)]
      ++ fs.map (fun pc => Event.commitText pc.1 (FileContent.text pc.2)
            ("Update " ++ pc.1 ++ " for round 2"))
      ++ fs.map (fun pc => Event.commitText pc.1 (FileContent.text pc.2)
            ("Add/Update " ++ pc.1))
      ++ [Event.commitText "LICENSE" (FileContent.text env.mitText)
            "Add MIT license",
          Event.getCommitsCall,
          Event.notifyCall data.evaluation_url p,
          Event.ledgerSave (setKey (load_processed env.ledgerFile)
            (data.email ++ "::" ++ data.task ++ "::round" ++ r.fmt
              ++ "::nonce" ++ data.nonce) p)] ∧
    Event.enablePagesCall data.task ∉ (process_request env data).events := by
  subst hp
  have hcfA := commitFiles_ok env "Update " " for round 2" fs
    (fun pc _ => hupT pc.1)
  have hcfB := commitFiles_ok env "Add/Update " "" fs (fun pc _ => hupT pc.1)
  have heq : (process_request env data).events =
      [Event.createRepoCall data.task
        ("Auto-generated app for task: " ++ data.brief)]
      ++ fs.map (fun pc => Event.commitText pc.1 (FileContent.text pc.2)
            ("Update " ++ pc.1 ++ " for round 2"))
      ++ fs.map (fun pc => Event.commitText pc.1 (FileContent.text pc.2)
            ("Add/Update " ++ pc.1))
      ++ [Event.commitText "LICENSE" (FileContent.text env.mitText)
            "Add MIT license",
          Event.getCommitsCall,
          Event.notifyCall data.evaluation_url
            { email := data.email, task := data.task, round := r,
              nonce := data.nonce, repo_url := env.repoHtmlUrl,
              commit_sha := some sha,
              pages_url := some ("https://" ++ env.username ++ ".github.io/"
                ++ data.task ++ "/") },
          Event.ledgerSave (setKey (load_processed env.ledgerFile)
            (data.email ++ "::" ++ data.task ++ "::round" ++ r.fmt
              ++ "::nonce" ++ data.nonce)
            { email := data.email, task := data.task, round := r,
              nonce := data.nonce, repo_url := env.repoHtmlUrl,
              commit_sha := some sha,
              pages_url := some ("https://" ++ env.username ++ ".github.io/"
                ++ data.task ++ "/") })] := by
    simp [process_request, persistKey, shaOutcome, hr, hne, hgen, hcfA, hcfB,
      hupT, hsha]
  refine ⟨heq, ?_⟩
  rw [heq]
  simp [List.mem_append, List.mem_map]

/-- C10 witness, at round value 0. -/
theorem C10_non_round1_revision_branch_witness :
    (process_request wEnvNoAtt wDataR0).events =
      [Event.createRepoCall wDataR0.task
        ("Auto-generated app for task: " ++ wDataR0.brief)]
      ++ wGenNoAtt.files.map (fun pc => Event.commitText pc.1
            (FileContent.text pc.2) ("Update " ++ pc.1 ++ " for round 2"))
      ++ wGenNoAtt.files.map (fun pc => Event.commitText pc.1
            (FileContent.text pc.2) ("Add/Update " ++ pc.1))
      ++ [Event.commitText "LICENSE" (FileContent.text wEnvNoAtt.mitText)
            "Add MIT license",
          Event.getCommitsCall,
          Event.notifyCall wDataR0.evaluation_url wPayloadR0,
          Event.ledgerSave (setKey (load_processed wEnvNoAtt.ledgerFile)
            (wDataR0.email ++ "::" ++ wDataR0.task ++ "::round"
              ++ (RVal.int 0).fmt ++ "::nonce" ++ wDataR0.nonce) wPayloadR0)] ∧
    Event.enablePagesCall wDataR0.task ∉ (process_request wEnvNoAtt wDataR0).events :=
  C10_non_round1_revision_branch wEnvNoAtt wDataR0 wGenNoAtt.files []
    (RVal.int 0) "sha1" wPayloadR0 rfl (by decide) rfl (fun _ => rfl) rfl rfl

end TdsP1
